import Mathlib

/-!
# Verification of the SpessaSynth frame render-loop controller

Shallow embedding of `src/src/website/js/renderer/render.js` (the `render`
function, the module-level `hasRenderedNoVoices` flag, and the per-frame
drawing trace), together with theorems settling the specification claims.

Modelling conventions:
* The `Renderer` instance fields read by `render` form `RendererState`;
  the module-level mutable `hasRenderedNoVoices` flag is carried in the
  same record, since it persists across invocations exactly like a field.
* Side effects (scheduling, canvas calls, collaborator calls, the
  `onRender` hook) are recorded as an ordered `List Event` trace, in the
  exact order the source performs them.
* `performance.now()` is modelled by a single rational timestamp `now`
  supplied per invocation (the source calls it twice in adjacent lines;
  both reads are modelled as the same instant).
* JavaScript numbers are modelled as `ℚ` (all arithmetic the claims touch
  is exact in the source); `Math.round` is `jsRound` (round half toward
  +∞, i.e. `⌊x + 1/2⌋`).
* The one fallible operation in the body is the unguarded property access
  `this.seq.currentTempo` (line 89 of the source), which throws a
  `TypeError` when `this.seq` is `undefined`.  A throw is modelled by the
  `raised` flag of `RenderResult`: events already emitted before the
  throwing line stay in the trace, nothing after it is emitted.
* String concatenation with a JavaScript number (`x + "BPM"`,
  `Math.round(fps).toString() + " FPS"`, `` `${n} notes` ``) is modelled
  by `JsText.numSuffix q s`, keeping the numeric value exact rather than
  stringifying it.
-/

namespace SpessaRender

/-- Fields of the playback source (`this.seq`) read by `render`. -/
structure Seq where
  paused : Bool
  currentTempo : ℚ
  playbackRate : ℚ
deriving DecidableEq, Repr

/-- Fields of the sound engine (`this.synth`) read by `render`. -/
structure Synth where
  voicesAmount : ℕ
  highPerformanceMode : Bool
deriving DecidableEq, Repr

/-- Modelled from the spec: `rendererModes` is imported from
`renderer.js`, a file of this repository not present under `src/`.  The
spec distinguishes only the waveform-only mode from note-display modes,
and `render` only compares against `rendererModes.waveformsMode`. -/
inductive RendererMode
  | waveformsMode
  | notesMode
deriving DecidableEq, Repr

/-- Modelled from the spec: `FONT_SIZE` is imported from `renderer.js`,
a file of this repository not present under `src/`; its numeric value is
not given by the spec and no claim depends on it.  Fixed at 16 px. -/
def FONT_SIZE : ℚ := 16

/-- The `Renderer` instance fields read by `render`, plus the
module-level `hasRenderedNoVoices` flag (the spec's `idleSettled`) and
the frame-timer field `frameTimeStart` (the spec's `lastFrameStart`),
both of which persist across invocations. -/
structure RendererState where
  seq : Option Seq
  synth : Synth
  rendererMode : RendererMode
  renderBool : Bool
  renderAnalysers : Bool
  renderNotes : Bool
  /-- Presence of note-timing data (`this.noteTimes` truthiness). -/
  noteTimes : Bool
  sideways : Bool
  showHoldPedal : Bool
  version : String
  notesOnScreen : ℕ
  currentTimeSignature : String
  holdPedalIsDownText : String
  canvasWidth : ℚ
  canvasHeight : ℚ
  /-- Presence of the optional `this.onRender` hook. -/
  hasOnRender : Bool
  frameTimeStart : ℚ
  hasRenderedNoVoices : Bool
deriving DecidableEq, Repr

/-- A text payload handed to `fillText`: either a plain string, or a
JavaScript number concatenated with a string suffix. -/
inductive JsText
  | lit (s : String)
  | numSuffix (q : ℚ) (suffix : String)
deriving DecidableEq, Repr

/-- One observable side effect of a `render` invocation, in source
order: scheduling, canvas configuration and drawing, collaborator calls,
and the render-complete hook. -/
inductive Event
  | requestAnimationFrame
  | clearRect (x y w h : ℚ)
  | renderWaveforms (forceStraight : Bool)
  | computeNotePositions (highPerformanceMode : Bool)
  | drawNotes (sideways : Bool)
  | setTextBaseline (s : String)
  | setTextAlign (s : String)
  | setFont (sizePx : ℚ) (family : String)
  | setFillStyle (s : String)
  | setStrokeStyle (s : String)
  | fillText (t : JsText) (x y : ℚ)
  | onRender
deriving DecidableEq, Repr

/-- Result of one `render` invocation: the ordered side-effect trace,
whether the call raised (propagating a `TypeError` to the host), and the
values of the two persistent mutable cells after the call. -/
structure RenderResult where
  events : List Event
  raised : Bool
  frameTimeStart : ℚ
  hasRenderedNoVoices : Bool
deriving DecidableEq, Repr

/-- JavaScript `Math.round`: round half toward positive infinity. -/
def jsRound (q : ℚ) : ℤ := ⌊q + 1 / 2⌋

/-- Lines 14–18 of `render.js`:
`(this.seq === undefined || this?.seq?.paused === true) &&
 this.synth.voicesAmount === 0 &&
 this.rendererMode === rendererModes.waveformsMode && !force`. -/
def nothingToDo (st : RendererState) (force : Bool) : Bool :=
  (st.seq.isNone || st.seq.elim false Seq.paused)
    && st.synth.voicesAmount == 0
    && (st.rendererMode == RendererMode.waveformsMode)
    && !force

/-- Lines 42–46: when `auto` is set, request the next animation frame
and clear the whole canvas, in that order. -/
def autoEvents (st : RendererState) (auto : Bool) : List Event :=
  if auto then
    [Event.requestAnimationFrame,
     Event.clearRect 0 0 st.canvasWidth st.canvasHeight]
  else []

/-- Lines 48–52: the analyser layer, drawn only when waveform rendering
is enabled and high-performance mode is off. -/
def waveformEvents (st : RendererState) (forceStraight : Bool) : List Event :=
  if st.renderAnalysers && !st.synth.highPerformanceMode then
    [Event.renderWaveforms forceStraight]
  else []

/-- Lines 54–67: the note layer.  Positions are always computed (with
the high-performance flag) when note rendering is enabled and
note-timing data is present; per-note drawing is skipped in
high-performance mode. -/
def noteEvents (st : RendererState) : List Event :=
  if st.renderNotes && st.noteTimes then
    Event.computeNotePositions st.synth.highPerformanceMode ::
      (if !st.synth.highPerformanceMode then [Event.drawNotes st.sideways] else [])
  else []

/-- Lines 69–72: the instantaneous FPS computed on a drawn frame. -/
def frameFps (st : RendererState) (now : ℚ) : ℚ :=
  1000 / (now - st.frameTimeStart)

/-- Lines 74–82: canvas configuration and the trailing-edge HUD texts
(FPS, version, on-screen note count), emitted on every drawn frame. -/
def hudEvents (st : RendererState) (now : ℚ) : List Event :=
  [Event.setTextBaseline "hanging",
   Event.setTextAlign "end",
   Event.setFont FONT_SIZE "monospace",
   Event.setFillStyle "white",
   Event.setStrokeStyle "white",
   Event.fillText (JsText.numSuffix (jsRound (frameFps st now) : ℚ) " FPS")
     st.canvasWidth (FONT_SIZE * 2 + 5),
   Event.fillText (JsText.lit st.version) st.canvasWidth 5,
   Event.fillText (JsText.numSuffix (st.notesOnScreen : ℚ) " notes")
     st.canvasWidth (FONT_SIZE + 5)]

/-- The value shown in the tempo label (line 89):
`Math.round(this.seq.currentTempo * this.seq.playbackRate * 100) / 100`. -/
def tempoValue (s : Seq) : ℚ :=
  (jsRound (s.currentTempo * s.playbackRate * 100) : ℚ) / 100

/-- Lines 84–94: the leading-edge tempo / time-signature labels, gated
only on note-timing data.  Line 89 reads `this.seq.currentTempo` without
a guard: with `seq` absent the `textAlign` assignment (line 87) has
already happened and the access then throws. -/
def tempoEvents (st : RendererState) : List Event :=
  if st.noteTimes then
    match st.seq with
    | none => [Event.setTextAlign "start"]
    | some s =>
        [Event.setTextAlign "start",
         Event.fillText (JsText.numSuffix (tempoValue s) "BPM") 0 5,
         Event.fillText (JsText.lit st.currentTimeSignature) 0 (FONT_SIZE + 5)]
  else []

/-- Whether line 89 throws: note-timing data present but `this.seq`
undefined. -/
def tempoRaises (st : RendererState) : Bool :=
  st.noteTimes && st.seq.isNone

/-- Lines 96–102: the centered hold-pedal message. -/
def pedalEvents (st : RendererState) : List Event :=
  if st.showHoldPedal then
    [Event.setFont (FONT_SIZE * 3) "monospace",
     Event.setTextAlign "center",
     Event.fillText (JsText.lit st.holdPedalIsDownText)
       (st.canvasWidth / 2) (st.canvasHeight / 4)]
  else []

/-- Lines 105–108: the optional render-complete hook. -/
def hookEvents (st : RendererState) : List Event :=
  if st.hasOnRender then [Event.onRender] else []

/-- Lines 42–108: the common drawn-frame body reached by both the
settle branch (with `forceStraight = true`, `hasRenderedNoVoices` just
set to `true`) and the active branch (`forceStraight = false`,
`hasRenderedNoVoices` just set to `false`).  `frameTimeStart` is
updated (line 71) before the potentially-throwing line 89, so it is
updated even on a raising frame; events after the throw point are
dropped when the frame raises. -/
def renderDrawnFrame (st : RendererState) (now : ℚ)
    (auto forceStraight hrnv : Bool) : RenderResult :=
  { events :=
      autoEvents st auto ++ waveformEvents st forceStraight ++ noteEvents st
        ++ hudEvents st now ++ tempoEvents st
        ++ (if tempoRaises st then [] else pedalEvents st ++ hookEvents st),
    raised := tempoRaises st,
    frameTimeStart := now,
    hasRenderedNoVoices := hrnv }

/-- The `render` function of `render.js` (lines 12–109).  Branch
structure of lines 20–40: when `!this.renderBool || nothingToDo`, either
skip everything except the re-scheduling (if `hasRenderedNoVoices` is
already set) or perform one settle draw with `forceStraight = true` and
set `hasRenderedNoVoices`; otherwise clear `hasRenderedNoVoices` and
draw normally. -/
def render (st : RendererState) (now : ℚ) (auto force : Bool) : RenderResult :=
  if !st.renderBool || nothingToDo st force then
    if st.hasRenderedNoVoices then
      { events := if auto then [Event.requestAnimationFrame] else [],
        raised := false,
        frameTimeStart := st.frameTimeStart,
        hasRenderedNoVoices := st.hasRenderedNoVoices }
    else
      renderDrawnFrame st now auto true true
  else
    renderDrawnFrame st now auto false false

/-- Whether the invocation reaches the drawn-frame body (Active, or the
single idle settle frame), rather than the skip branch. -/
def isDrawnCall (st : RendererState) (force : Bool) : Bool :=
  if !st.renderBool || nothingToDo st force then !st.hasRenderedNoVoices else true

/-- Events that put marks on the drawing surface or delegate drawing to
a collaborator; scheduling, position computation and canvas text
configuration are not draws. -/
def isDrawEvent : Event → Bool
  | Event.clearRect _ _ _ _ => true
  | Event.renderWaveforms _ => true
  | Event.drawNotes _ => true
  | Event.fillText _ _ _ => true
  | _ => false

/-- An invocation "draws" when its trace contains at least one draw
call. -/
def draws (r : RenderResult) : Bool :=
  r.events.any isDrawEvent

/-- The persistent state after an invocation: only the two mutable
cells (`frameTimeStart`, `hasRenderedNoVoices`) change. -/
def nextState (st : RendererState) (now : ℚ) (auto force : Bool) : RendererState :=
  { st with
    frameTimeStart := (render st now auto force).frameTimeStart,
    hasRenderedNoVoices := (render st now auto force).hasRenderedNoVoices }

/-! ## Concrete states used by witnesses and counterexamples -/

/-- Concrete active state: unpaused playback source (tempo 120, playback
rate 1.5), one audible voice, note-display mode, all layers enabled. -/
def activeSt : RendererState :=
  { seq := some { paused := false, currentTempo := 120, playbackRate := 3 / 2 },
    synth := { voicesAmount := 1, highPerformanceMode := false },
    rendererMode := RendererMode.notesMode,
    renderBool := true,
    renderAnalysers := true,
    renderNotes := true,
    noteTimes := true,
    sideways := false,
    showHoldPedal := true,
    version := "v3.20.24",
    notesOnScreen := 7,
    currentTimeSignature := "4/4",
    holdPedalIsDownText := "Hold pedal",
    canvasWidth := 640,
    canvasHeight := 480,
    hasOnRender := true,
    frameTimeStart := 0,
    hasRenderedNoVoices := false }

/-- Concrete idle state: no playback source, zero voices, waveform-only
mode, not yet settled. -/
def idleSt : RendererState :=
  { activeSt with
    seq := none,
    synth := { voicesAmount := 0, highPerformanceMode := false },
    rendererMode := RendererMode.waveformsMode,
    noteTimes := false,
    showHoldPedal := false }

/-- The idle state after its settle frame. -/
def settledIdleSt : RendererState :=
  { idleSt with hasRenderedNoVoices := true }

/-- Active state with rendering disabled by the `renderBool` toggle. -/
def disabledSt : RendererState :=
  { activeSt with renderBool := false }

/-- Disabled state after its settle frame. -/
def disabledSettledSt : RendererState :=
  { disabledSt with hasRenderedNoVoices := true }

/-- Idle state with rendering disabled, as reached at the start of the
idle-idle-active counterexample run. -/
def reactCexSt0 : RendererState :=
  { idleSt with renderBool := false }

/-- State after the first (settle) call of the counterexample run. -/
def reactCexSt1 : RendererState := nextState reactCexSt0 0 true false

/-- State after the second (skipped) call of the counterexample run. -/
def reactCexSt2 : RendererState := nextState reactCexSt1 1 true false

/-- Third call of the counterexample run: a voice becomes audible while
`renderBool` is still false. -/
def reactCexSt3 : RendererState :=
  { reactCexSt2 with synth := { voicesAmount := 1, highPerformanceMode := false } }

/-- Settled idle state reached while `renderBool` is false, used to show
that `force` cannot bypass the `renderBool` gate. -/
def forceCexSt : RendererState :=
  { disabledSt with hasRenderedNoVoices := true }

/-- Drawn frame with note-timing data but note rendering disabled, in
high-performance mode. -/
def computeCexSt : RendererState :=
  { activeSt with
    renderNotes := false,
    synth := { voicesAmount := 1, highPerformanceMode := true } }

/-- Drawn frame in high-performance mode with all layers enabled. -/
def hpSt : RendererState :=
  { activeSt with synth := { voicesAmount := 1, highPerformanceMode := true } }

/-- Drawn frame with note-timing data present but the playback source
absent: line 89 of the source throws on this state. -/
def raisingSt : RendererState :=
  { activeSt with
    seq := none,
    synth := { voicesAmount := 0, highPerformanceMode := false } }

/-- Drawn frame with the tempo/time-signature layer disabled by absent
note-timing data, hold-pedal indicator shown. -/
def noNotesSt : RendererState :=
  { activeSt with noteTimes := false }

/-! ## Helper lemmas about the branch structure of `render` -/

/-- On a drawn call, `render` reaches the common body; the settle branch
passes `forceStraight = true` and records `hasRenderedNoVoices := true`,
the active branch passes `false` twice — both equal to the gate value
`!renderBool || nothingToDo`. -/
theorem render_drawn_eq (st : RendererState) (now : ℚ) (auto force : Bool)
    (h : isDrawnCall st force = true) :
    render st now auto force =
      renderDrawnFrame st now auto (!st.renderBool || nothingToDo st force)
        (!st.renderBool || nothingToDo st force) := by
  cases hg : (!st.renderBool || nothingToDo st force) with
  | false => simp [render, hg]
  | true =>
    simp [isDrawnCall, hg] at h
    simp [render, hg, h]

/-- On a skipped call (idle and already settled), `render` only
re-schedules (when `auto`) and leaves both persistent cells unchanged. -/
theorem render_skipped_eq (st : RendererState) (now : ℚ) (auto force : Bool)
    (h : isDrawnCall st force = false) :
    render st now auto force =
      { events := if auto then [Event.requestAnimationFrame] else [],
        raised := false,
        frameTimeStart := st.frameTimeStart,
        hasRenderedNoVoices := st.hasRenderedNoVoices } := by
  cases hg : (!st.renderBool || nothingToDo st force) with
  | false => simp [isDrawnCall, hg] at h
  | true =>
    simp [isDrawnCall, hg] at h
    simp [render, hg, h]

/-- Every drawn-frame body contains the version text, hence draws. -/
theorem drawnFrame_draws (st : RendererState) (now : ℚ) (auto fs hrnv : Bool) :
    draws (renderDrawnFrame st now auto fs hrnv) = true := by
  simp [draws, List.any_eq_true]
  refine ⟨Event.fillText (JsText.lit st.version) st.canvasWidth 5, ?_, by simp [isDrawEvent]⟩
  simp [renderDrawnFrame, hudEvents]

/-- A skipped call draws nothing. -/
theorem skipped_no_draws (st : RendererState) (now : ℚ) (auto force : Bool)
    (h : isDrawnCall st force = false) :
    draws (render st now auto force) = false := by
  rw [render_skipped_eq st now auto force h]
  cases auto <;> simp [draws, isDrawEvent]

/-- A drawn call stamps `frameTimeStart` with the current timestamp. -/
theorem drawn_frameTimeStart (st : RendererState) (now : ℚ) (auto force : Bool)
    (h : isDrawnCall st force = true) :
    (render st now auto force).frameTimeStart = now := by
  rw [render_drawn_eq st now auto force h]; rfl

/-- After a drawn call, `hasRenderedNoVoices` equals the gate value. -/
theorem drawn_hasRenderedNoVoices (st : RendererState) (now : ℚ) (auto force : Bool)
    (h : isDrawnCall st force = true) :
    (render st now auto force).hasRenderedNoVoices =
      (!st.renderBool || nothingToDo st force) := by
  rw [render_drawn_eq st now auto force h]; rfl

/-- A drawn call raises exactly when note-timing data is present but the
playback source is absent. -/
theorem drawn_raised_eq (st : RendererState) (now : ℚ) (auto force : Bool)
    (h : isDrawnCall st force = true) :
    (render st now auto force).raised = tempoRaises st := by
  rw [render_drawn_eq st now auto force h]; rfl

/-- A call with a false gate (`renderBool` set and activity present) is
always drawn. -/
theorem isDrawnCall_of_gate_false (st : RendererState) (force : Bool)
    (h : (!st.renderBool || nothingToDo st force) = false) :
    isDrawnCall st force = true := by
  simp [isDrawnCall, h]

/-- An unsettled call is always drawn. -/
theorem isDrawnCall_of_not_settled (st : RendererState) (force : Bool)
    (h : st.hasRenderedNoVoices = false) :
    isDrawnCall st force = true := by
  cases hg : (!st.renderBool || nothingToDo st force) <;> simp [isDrawnCall, hg, h]

/-- HUD events belong to every drawn-frame trace. -/
theorem mem_drawnFrame_of_mem_hud (st : RendererState) (now : ℚ)
    (auto fs hrnv : Bool) (e : Event) (he : e ∈ hudEvents st now) :
    e ∈ (renderDrawnFrame st now auto fs hrnv).events := by
  simp [renderDrawnFrame]
  exact Or.inr (Or.inr (Or.inr (Or.inl he)))

/-- Tempo-block events belong to every drawn-frame trace. -/
theorem mem_drawnFrame_of_mem_tempo (st : RendererState) (now : ℚ)
    (auto fs hrnv : Bool) (e : Event) (he : e ∈ tempoEvents st) :
    e ∈ (renderDrawnFrame st now auto fs hrnv).events := by
  simp [renderDrawnFrame]
  exact Or.inr (Or.inr (Or.inr (Or.inr (Or.inl he))))

/-- Hold-pedal events belong to the trace of every non-raising drawn
frame. -/
theorem mem_drawnFrame_of_mem_pedal (st : RendererState) (now : ℚ)
    (auto fs hrnv : Bool) (hr : tempoRaises st = false) (e : Event)
    (he : e ∈ pedalEvents st) :
    e ∈ (renderDrawnFrame st now auto fs hrnv).events := by
  simp [renderDrawnFrame, hr]
  exact Or.inr (Or.inr (Or.inr (Or.inr (Or.inr (Or.inl he)))))

/-! ## Claim theorems -/

/-- C2: a frame is classified "nothing to do" iff the playback source is
absent or paused, the audible-voice count is zero, the display mode is
waveform-only, and `force` is false. -/
theorem nothingToDo_characterization (st : RendererState) (force : Bool) :
    nothingToDo st force = true ↔
      ((st.seq = none ∨ ∃ s, st.seq = some s ∧ s.paused = true) ∧
        st.synth.voicesAmount = 0 ∧
        st.rendererMode = RendererMode.waveformsMode ∧
        force = false) := by
  cases hseq : st.seq <;>
    simp [nothingToDo, hseq, Bool.and_eq_true, Bool.not_eq_true'] <;>
    tauto

/-- C2 witness: the concrete idle state satisfies all four conditions
and is classified "nothing to do". -/
theorem nothingToDo_characterization_inst :
    nothingToDo idleSt false = true ∧ idleSt.seq = none ∧
      idleSt.synth.voicesAmount = 0 ∧
      idleSt.rendererMode = RendererMode.waveformsMode :=
  ⟨(nothingToDo_characterization idleSt false).mpr ⟨Or.inl rfl, rfl, rfl, rfl⟩,
   rfl, rfl, rfl⟩

/-- C1 (amended): the idle/settle state machine, for the spec's activity
predicate, holds with the proviso that the reactivation call has the
render-enable toggle (`renderBool`) set.  (i) On the first call where
nothing-to-do holds and the settle flag is clear, `render` performs a
draw and sets the flag; (ii) on every further nothing-to-do call it
draws nothing and the flag stays set; (iii) a call with `renderBool`
true in which activity is present again draws fully without `force` and
leaves the flag clear. -/
theorem idle_transition_state_machine :
    (∀ (st : RendererState) (now : ℚ) (auto force : Bool),
        nothingToDo st force = true → st.hasRenderedNoVoices = false →
        draws (render st now auto force) = true ∧
        (render st now auto force).hasRenderedNoVoices = true) ∧
    (∀ (st : RendererState) (now : ℚ) (auto force : Bool),
        nothingToDo st force = true → st.hasRenderedNoVoices = true →
        draws (render st now auto force) = false ∧
        (render st now auto force).hasRenderedNoVoices = true) ∧
    (∀ (st : RendererState) (now : ℚ) (auto : Bool),
        st.renderBool = true → nothingToDo st false = false →
        draws (render st now auto false) = true ∧
        (render st now auto false).hasRenderedNoVoices = false) := by
  refine ⟨?_, ?_, ?_⟩
  · intro st now auto force hn hs
    have hd := isDrawnCall_of_not_settled st force hs
    constructor
    · rw [render_drawn_eq st now auto force hd]
      exact drawnFrame_draws st now auto _ _
    · rw [drawn_hasRenderedNoVoices st now auto force hd, hn, Bool.or_true]
  · intro st now auto force hn hs
    have hd : isDrawnCall st force = false := by
      simp [isDrawnCall, hn, hs]
    constructor
    · exact skipped_no_draws st now auto force hd
    · rw [render_skipped_eq st now auto force hd]
      exact hs
  · intro st now auto hrb hn
    have hg : (!st.renderBool || nothingToDo st false) = false := by
      simp [hrb, hn]
    have hd := isDrawnCall_of_gate_false st false hg
    constructor
    · rw [render_drawn_eq st now auto false hd]
      exact drawnFrame_draws st now auto _ _
    · rw [drawn_hasRenderedNoVoices st now auto false hd, hg]

/-- C1 counterexample: with `renderBool` false, two consecutive idle
calls are followed by a call with an audible voice — activity is present
and `force` is not needed according to the claim, yet no draw occurs. -/
theorem reactivation_requires_renderBool_cex :
    nothingToDo reactCexSt0 false = true ∧
    nothingToDo reactCexSt1 false = true ∧
    draws (render reactCexSt1 1 true false) = false ∧
    reactCexSt3.synth.voicesAmount > 0 ∧
    nothingToDo reactCexSt3 false = false ∧
    draws (render reactCexSt3 2 true false) = false := by decide

/-- C1 witness: the settle, skip and reactivation transitions on the
concrete idle/active states. -/
theorem idle_transition_state_machine_inst :
    (draws (render idleSt 5 true false) = true ∧
      (render idleSt 5 true false).hasRenderedNoVoices = true) ∧
    (draws (render settledIdleSt 5 true false) = false ∧
      (render settledIdleSt 5 true false).hasRenderedNoVoices = true) ∧
    (draws (render activeSt 5 true false) = true ∧
      (render activeSt 5 true false).hasRenderedNoVoices = false) :=
  ⟨idle_transition_state_machine.1 idleSt 5 true false (by decide) (by decide),
   idle_transition_state_machine.2.1 settledIdleSt 5 true false (by decide) (by decide),
   idle_transition_state_machine.2.2 activeSt 5 true (by decide) (by decide)⟩

/-- C9: the `renderBool` toggle routes every call through the idle
path: with `renderBool` false an unsettled call performs the one settle
draw and sets the flag; once settled, no call draws — whatever `force`,
the voice count or the mode — until a call with `renderBool` true and
activity present clears the flag again. -/
theorem renderBool_gates_idle_path :
    (∀ (st : RendererState) (now : ℚ) (auto force : Bool),
        st.renderBool = false → st.hasRenderedNoVoices = false →
        draws (render st now auto force) = true ∧
        (render st now auto force).hasRenderedNoVoices = true) ∧
    (∀ (st : RendererState) (now : ℚ) (auto force : Bool),
        st.renderBool = false → st.hasRenderedNoVoices = true →
        draws (render st now auto force) = false ∧
        (render st now auto force).hasRenderedNoVoices = true) ∧
    (∀ (st : RendererState) (now : ℚ) (auto : Bool),
        st.renderBool = true → nothingToDo st false = false →
        (render st now auto false).hasRenderedNoVoices = false) := by
  refine ⟨?_, ?_, ?_⟩
  · intro st now auto force hrb hs
    have hd := isDrawnCall_of_not_settled st force hs
    constructor
    · rw [render_drawn_eq st now auto force hd]
      exact drawnFrame_draws st now auto _ _
    · rw [drawn_hasRenderedNoVoices st now auto force hd, hrb]
      rfl
  · intro st now auto force hrb hs
    have hd : isDrawnCall st force = false := by
      simp [isDrawnCall, hrb, hs]
    constructor
    · exact skipped_no_draws st now auto force hd
    · rw [render_skipped_eq st now auto force hd]
      exact hs
  · intro st now auto hrb hn
    have hg : (!st.renderBool || nothingToDo st false) = false := by
      simp [hrb, hn]
    rw [drawn_hasRenderedNoVoices st now auto false (isDrawnCall_of_gate_false st false hg), hg]

/-- C9 witness: the `renderBool` gate on concrete states — the settle
draw with `force = true`, the blocked forced call once settled, and the
reset by an enabled active call. -/
theorem renderBool_gates_idle_path_inst :
    (draws (render disabledSt 5 true true) = true ∧
      (render disabledSt 5 true true).hasRenderedNoVoices = true) ∧
    (draws (render disabledSettledSt 5 true true) = false ∧
      (render disabledSettledSt 5 true true).hasRenderedNoVoices = true) ∧
    (render activeSt 5 true false).hasRenderedNoVoices = false :=
  ⟨renderBool_gates_idle_path.1 disabledSt 5 true true (by decide) (by decide),
   renderBool_gates_idle_path.2.1 disabledSettledSt 5 true true (by decide) (by decide),
   renderBool_gates_idle_path.2.2 activeSt 5 true (by decide) (by decide)⟩

/-- C3: on a call where nothing-to-do holds and the settle flag is
already set, the trace is exactly one `requestAnimationFrame` when
`auto` is true and empty when `auto` is false — no clear-rect, no draw
calls — and the frame-timer cell is left unchanged. -/
theorem skipped_idle_frame_no_draws :
    ∀ (st : RendererState) (now : ℚ) (auto force : Bool),
      nothingToDo st force = true → st.hasRenderedNoVoices = true →
      (render st now auto force).events =
        (if auto then [Event.requestAnimationFrame] else []) ∧
      (render st now auto force).frameTimeStart = st.frameTimeStart ∧
      (render st now auto force).events.count Event.requestAnimationFrame =
        (if auto then 1 else 0) := by
  intro st now auto force hn hs
  have hd : isDrawnCall st force = false := by
    simp [isDrawnCall, hn, hs]
  rw [render_skipped_eq st now auto force hd]
  refine ⟨rfl, rfl, ?_⟩
  cases auto <;> simp

/-- C3 witness: the settled idle state, polled with and without
`auto`. -/
theorem skipped_idle_frame_no_draws_inst :
    ((render settledIdleSt 5 true false).events =
        (if true then [Event.requestAnimationFrame] else []) ∧
      (render settledIdleSt 5 true false).frameTimeStart =
        settledIdleSt.frameTimeStart ∧
      (render settledIdleSt 5 true false).events.count
          Event.requestAnimationFrame = (if true then 1 else 0)) ∧
    ((render settledIdleSt 5 false false).events =
        (if false then [Event.requestAnimationFrame] else []) ∧
      (render settledIdleSt 5 false false).frameTimeStart =
        settledIdleSt.frameTimeStart ∧
      (render settledIdleSt 5 false false).events.count
          Event.requestAnimationFrame = (if false then 1 else 0)) :=
  ⟨skipped_idle_frame_no_draws settledIdleSt 5 true false (by decide) (by decide),
   skipped_idle_frame_no_draws settledIdleSt 5 false false (by decide) (by decide)⟩

/-- C4 counterexample: with `renderBool` false and the settle flag set,
a call with `force = true` draws nothing — `force` does not bypass the
`renderBool` half of the idle gate. -/
theorem force_blocked_by_renderBool_cex :
    draws (render forceCexSt 0 true true) = false := by decide

/-- C4 (amended): provided the render-enable toggle (`renderBool`) is
set, `force = true` always yields a full draw whatever the activity
predicate says, and the settle flag is updated only by the normal
Active-transition rule (cleared, since the forced call is Active). -/
theorem force_always_draws_when_enabled :
    ∀ (st : RendererState) (now : ℚ) (auto : Bool), st.renderBool = true →
      draws (render st now auto true) = true ∧
      (render st now auto true).hasRenderedNoVoices = false := by
  intro st now auto hrb
  have hg : (!st.renderBool || nothingToDo st true) = false := by
    simp [hrb, nothingToDo]
  have hd := isDrawnCall_of_gate_false st true hg
  constructor
  · rw [render_drawn_eq st now auto true hd]
    exact drawnFrame_draws st now auto _ _
  · rw [drawn_hasRenderedNoVoices st now auto true hd, hg]

/-- C4 witness: a forced call on the settled idle state (activity
predicate false in every component except `force`). -/
theorem force_always_draws_when_enabled_inst :
    draws (render settledIdleSt 5 true true) = true ∧
    (render settledIdleSt 5 true true).hasRenderedNoVoices = false :=
  force_always_draws_when_enabled settledIdleSt 5 true (by decide)

/-- C10: on every drawn call with `auto = true`, the first two trace
entries are the animation-frame request followed by the clear — the next
invocation is scheduled before the canvas is cleared and before any
layer or HUD drawing, so the loop's continuation never depends on the
frame's drawing completing (a raising frame still has the request in its
trace). -/
theorem schedule_precedes_drawing :
    ∀ (st : RendererState) (now : ℚ) (force : Bool),
      isDrawnCall st force = true →
      (render st now true force).events.take 2 =
        [Event.requestAnimationFrame,
         Event.clearRect 0 0 st.canvasWidth st.canvasHeight] ∧
      Event.requestAnimationFrame ∈ (render st now true force).events := by
  intro st now force hd
  rw [render_drawn_eq st now true force hd]
  constructor
  · simp [renderDrawnFrame, autoEvents]
  · simp [renderDrawnFrame, autoEvents]

/-- C10 witness: a raising drawn frame (source absent, note-timing data
present) still schedules first. -/
theorem schedule_precedes_drawing_inst :
    ((render raisingSt 5 true false).events.take 2 =
        [Event.requestAnimationFrame,
         Event.clearRect 0 0 raisingSt.canvasWidth raisingSt.canvasHeight] ∧
      Event.requestAnimationFrame ∈ (render raisingSt 5 true false).events) ∧
    (render raisingSt 5 true false).raised = true :=
  ⟨schedule_precedes_drawing raisingSt 5 false (by decide), by decide⟩

/-- Note-layer events belong to every drawn-frame trace. -/
theorem mem_drawnFrame_of_mem_note (st : RendererState) (now : ℚ)
    (auto fs hrnv : Bool) (e : Event) (he : e ∈ noteEvents st) :
    e ∈ (renderDrawnFrame st now auto fs hrnv).events := by
  simp [renderDrawnFrame]
  exact Or.inr (Or.inr (Or.inl he))

/-- Every drawn call emits the FPS text computed from the previous
frame-start timestamp. -/
theorem fps_text_mem_drawn (st : RendererState) (now : ℚ) (auto force : Bool)
    (h : isDrawnCall st force = true) :
    Event.fillText
        (JsText.numSuffix (jsRound (1000 / (now - st.frameTimeStart)) : ℚ) " FPS")
        st.canvasWidth (FONT_SIZE * 2 + 5)
      ∈ (render st now auto force).events := by
  rw [render_drawn_eq st now auto force h]
  apply mem_drawnFrame_of_mem_hud
  simp [hudEvents, frameFps]

/-- In high-performance mode no drawn frame contains a `drawNotes`
call. -/
theorem drawNotes_not_mem_drawnFrame (st : RendererState) (now : ℚ)
    (auto fs hrnv sw : Bool) (hhp : st.synth.highPerformanceMode = true) :
    Event.drawNotes sw ∉ (renderDrawnFrame st now auto fs hrnv).events := by
  cases hseq : st.seq <;>
    simp [renderDrawnFrame, autoEvents, waveformEvents, noteEvents, hudEvents,
      tempoEvents, pedalEvents, hookEvents, tempoRaises, hseq, hhp]

/-- In high-performance mode no drawn frame contains a
`renderWaveforms` call. -/
theorem renderWaveforms_not_mem_drawnFrame (st : RendererState) (now : ℚ)
    (auto fs hrnv b : Bool) (hhp : st.synth.highPerformanceMode = true) :
    Event.renderWaveforms b ∉ (renderDrawnFrame st now auto fs hrnv).events := by
  cases hseq : st.seq <;>
    simp [renderDrawnFrame, autoEvents, waveformEvents, noteEvents, hudEvents,
      tempoEvents, pedalEvents, hookEvents, tempoRaises, hseq, hhp]

/-- A `renderWaveforms` call in a drawn-frame trace can come only from
the analyser layer, which is gated on the analyser toggle and the
absence of high-performance mode. -/
theorem renderWaveforms_mem_inv (st : RendererState) (now : ℚ)
    (auto fs hrnv b : Bool)
    (h : Event.renderWaveforms b ∈ (renderDrawnFrame st now auto fs hrnv).events) :
    st.renderAnalysers = true ∧ st.synth.highPerformanceMode = false := by
  cases hseq : st.seq <;>
  · simp [renderDrawnFrame, autoEvents, waveformEvents, noteEvents, hudEvents,
      tempoEvents, pedalEvents, hookEvents, tempoRaises, hseq] at h
    exact h.1

/-- JavaScript `Math.round` of an exact integer is that integer. -/
theorem jsRound_intCast (n : ℤ) : jsRound (n : ℚ) = n := by
  unfold jsRound
  rw [Int.floor_eq_iff]
  constructor <;> norm_num

/-- C5 (amended): on every drawn frame with note rendering enabled,
note-timing data present and high-performance mode on,
`computeNotePositions` is invoked with the high-performance flag while
`drawNotes` and `renderWaveforms` are not; and on any invocation at all,
`renderWaveforms` is invoked only when waveform rendering is enabled and
high-performance mode is off. -/
theorem high_performance_layer_gating :
    (∀ (st : RendererState) (now : ℚ) (auto force : Bool),
        isDrawnCall st force = true →
        st.renderNotes = true → st.noteTimes = true →
        st.synth.highPerformanceMode = true →
        Event.computeNotePositions true ∈ (render st now auto force).events ∧
        (∀ sw, Event.drawNotes sw ∉ (render st now auto force).events) ∧
        (∀ b, Event.renderWaveforms b ∉ (render st now auto force).events)) ∧
    (∀ (st : RendererState) (now : ℚ) (auto force b : Bool),
        Event.renderWaveforms b ∈ (render st now auto force).events →
        st.renderAnalysers = true ∧ st.synth.highPerformanceMode = false) := by
  constructor
  · intro st now auto force hd hrn hnt hhp
    refine ⟨?_, ?_, ?_⟩
    · rw [render_drawn_eq st now auto force hd]
      apply mem_drawnFrame_of_mem_note
      simp [noteEvents, hrn, hnt, hhp]
    · intro sw
      rw [render_drawn_eq st now auto force hd]
      exact drawNotes_not_mem_drawnFrame st now auto _ _ sw hhp
    · intro b
      rw [render_drawn_eq st now auto force hd]
      exact renderWaveforms_not_mem_drawnFrame st now auto _ _ b hhp
  · intro st now auto force b h
    cases hd : isDrawnCall st force with
    | false =>
      rw [render_skipped_eq st now auto force hd] at h
      cases auto <;> simp at h
    | true =>
      rw [render_drawn_eq st now auto force hd] at h
      exact renderWaveforms_mem_inv st now auto _ _ b h

/-- C5 counterexample: a drawn high-performance frame with note-timing
data present but note rendering disabled never calls
`computeNotePositions`, against the claim that note-timing data and
high-performance mode alone suffice. -/
theorem compute_positions_needs_renderNotes_cex :
    isDrawnCall computeCexSt false = true ∧
    computeCexSt.noteTimes = true ∧
    computeCexSt.synth.highPerformanceMode = true ∧
    Event.computeNotePositions true ∉ (render computeCexSt 0 true false).events := by
  decide

/-- C5 witness: the gating on a concrete high-performance drawn
frame. -/
theorem high_performance_layer_gating_inst :
    Event.computeNotePositions true ∈ (render hpSt 5 true false).events ∧
    Event.drawNotes false ∉ (render hpSt 5 true false).events ∧
    Event.renderWaveforms true ∉ (render hpSt 5 true false).events :=
  ⟨(high_performance_layer_gating.1 hpSt 5 true false (by decide) (by decide)
      (by decide) (by decide)).1,
   (high_performance_layer_gating.1 hpSt 5 true false (by decide) (by decide)
      (by decide) (by decide)).2.1 false,
   (high_performance_layer_gating.1 hpSt 5 true false (by decide) (by decide)
      (by decide) (by decide)).2.2 true⟩

/-- C7: on every drawn frame with note-timing data and a playback
source present, the HUD tempo label shows
`round(currentTempo * playbackRate * 100) / 100` suffixed "BPM"; tempo
120 at playback rate 1.5 gives 180 (rendered "180BPM"). -/
theorem tempo_label_value :
    (∀ (st : RendererState) (now : ℚ) (auto force : Bool) (s : Seq),
        isDrawnCall st force = true → st.noteTimes = true → st.seq = some s →
        Event.fillText (JsText.numSuffix (tempoValue s) "BPM") 0 5
          ∈ (render st now auto force).events) ∧
    (∀ s : Seq, s.currentTempo = 120 → s.playbackRate = 3 / 2 →
        tempoValue s = 180) := by
  constructor
  · intro st now auto force s hd hnt hseq
    rw [render_drawn_eq st now auto force hd]
    apply mem_drawnFrame_of_mem_tempo
    simp [tempoEvents, hnt, hseq]
  · intro s h1 h2
    have h3 : s.currentTempo * s.playbackRate * 100 = ((18000 : ℤ) : ℚ) := by
      rw [h1, h2]; norm_num
    rw [tempoValue, h3, jsRound_intCast]
    norm_num

/-- C7 witness: the tempo label on the concrete active state (tempo
120, playback rate 1.5). -/
theorem tempo_label_value_inst :
    Event.fillText
        (JsText.numSuffix
          (tempoValue { paused := false, currentTempo := 120, playbackRate := 3 / 2 })
          "BPM") 0 5
      ∈ (render activeSt 5 true false).events ∧
    tempoValue { paused := false, currentTempo := 120, playbackRate := 3 / 2 } = 180 :=
  ⟨tempo_label_value.1 activeSt 5 true false _ (by decide) (by decide) rfl,
   tempo_label_value.2 _ rfl rfl⟩

/-- C8 (amended): when note-timing data is absent, a drawn frame
completes without raising — the FPS, version and note-count HUD texts
are emitted, and so is the hold-pedal label when its toggle is set —
whatever the playback source; the unamended claim fails when the source
is absent while note-timing data is present, since the tempo-label
access then raises. -/
theorem missing_noteTimes_degrades_gracefully :
    ∀ (st : RendererState) (now : ℚ) (auto force : Bool),
      isDrawnCall st force = true → st.noteTimes = false →
      (render st now auto force).raised = false ∧
      Event.fillText
          (JsText.numSuffix (jsRound (1000 / (now - st.frameTimeStart)) : ℚ) " FPS")
          st.canvasWidth (FONT_SIZE * 2 + 5) ∈ (render st now auto force).events ∧
      Event.fillText (JsText.lit st.version) st.canvasWidth 5
        ∈ (render st now auto force).events ∧
      Event.fillText (JsText.numSuffix (st.notesOnScreen : ℚ) " notes")
          st.canvasWidth (FONT_SIZE + 5) ∈ (render st now auto force).events ∧
      (st.showHoldPedal = true →
        Event.fillText (JsText.lit st.holdPedalIsDownText)
            (st.canvasWidth / 2) (st.canvasHeight / 4)
          ∈ (render st now auto force).events) := by
  intro st now auto force hd hnt
  have hr : tempoRaises st = false := by simp [tempoRaises, hnt]
  refine ⟨?_, fps_text_mem_drawn st now auto force hd, ?_, ?_, ?_⟩
  · rw [drawn_raised_eq st now auto force hd, hr]
  · rw [render_drawn_eq st now auto force hd]
    exact mem_drawnFrame_of_mem_hud st now auto _ _ _ (by simp [hudEvents])
  · rw [render_drawn_eq st now auto force hd]
    exact mem_drawnFrame_of_mem_hud st now auto _ _ _ (by simp [hudEvents])
  · intro hsp
    rw [render_drawn_eq st now auto force hd]
    exact mem_drawnFrame_of_mem_pedal st now auto _ _ hr _ (by simp [pedalEvents, hsp])

/-- C8 counterexample: a drawn frame with the playback source absent
but note-timing data present raises at the tempo label, and the
hold-pedal layer (enabled on this state) is never drawn — a missing
playback source does not merely disable its own layer. -/
theorem missing_seq_with_noteTimes_raises_cex :
    raisingSt.seq = none ∧
    raisingSt.showHoldPedal = true ∧
    (render raisingSt 0 true false).raised = true ∧
    Event.fillText (JsText.lit raisingSt.holdPedalIsDownText)
        (raisingSt.canvasWidth / 2) (raisingSt.canvasHeight / 4)
      ∉ (render raisingSt 0 true false).events := by
  decide

/-- C8 witness: graceful degradation on a concrete drawn frame without
note-timing data. -/
theorem missing_noteTimes_degrades_gracefully_inst :
    (render noNotesSt 5 true false).raised = false ∧
    Event.fillText (JsText.lit noNotesSt.version) noNotesSt.canvasWidth 5
      ∈ (render noNotesSt 5 true false).events ∧
    Event.fillText (JsText.lit noNotesSt.holdPedalIsDownText)
        (noNotesSt.canvasWidth / 2) (noNotesSt.canvasHeight / 4)
      ∈ (render noNotesSt 5 true false).events :=
  ⟨(missing_noteTimes_degrades_gracefully noNotesSt 5 true false (by decide) (by decide)).1,
   (missing_noteTimes_degrades_gracefully noNotesSt 5 true false (by decide) (by decide)).2.2.1,
   (missing_noteTimes_degrades_gracefully noNotesSt 5 true false (by decide) (by decide)).2.2.2.2
     (by decide)⟩

/-- C6: `frameTimeStart` is stamped with the current timestamp and the
FPS text `round(1000 / (now - frameTimeStart))` emitted exactly on drawn
frames; a skipped idle frame leaves the timer untouched and emits no
numeric text at all; and of two consecutively drawn frames 100 ms
apart, the second computes FPS = 10 and shows "10 FPS". -/
theorem fps_only_on_drawn_frames :
    (∀ (st : RendererState) (now : ℚ) (auto force : Bool),
        isDrawnCall st force = true →
        (render st now auto force).frameTimeStart = now ∧
        Event.fillText
            (JsText.numSuffix (jsRound (1000 / (now - st.frameTimeStart)) : ℚ) " FPS")
            st.canvasWidth (FONT_SIZE * 2 + 5) ∈ (render st now auto force).events) ∧
    (∀ (st : RendererState) (now : ℚ) (auto force : Bool),
        isDrawnCall st force = false →
        (render st now auto force).frameTimeStart = st.frameTimeStart ∧
        ∀ (q x y : ℚ) (s : String),
          Event.fillText (JsText.numSuffix q s) x y ∉ (render st now auto force).events) ∧
    (∀ (st : RendererState) (t1 : ℚ) (auto force auto2 force2 : Bool),
        isDrawnCall st force = true →
        isDrawnCall (nextState st t1 auto force) force2 = true →
        frameFps (nextState st t1 auto force) (t1 + 100) = 10 ∧
        Event.fillText (JsText.numSuffix (10 : ℚ) " FPS")
            st.canvasWidth (FONT_SIZE * 2 + 5)
          ∈ (render (nextState st t1 auto force) (t1 + 100) auto2 force2).events) := by
  refine ⟨?_, ?_, ?_⟩
  · intro st now auto force hd
    exact ⟨drawn_frameTimeStart st now auto force hd,
           fps_text_mem_drawn st now auto force hd⟩
  · intro st now auto force hd
    rw [render_skipped_eq st now auto force hd]
    refine ⟨rfl, ?_⟩
    intro q x y s
    cases auto <;> simp
  · intro st t1 auto force auto2 force2 h1 h2
    have hft : (nextState st t1 auto force).frameTimeStart = t1 := by
      show (render st t1 auto force).frameTimeStart = t1
      exact drawn_frameTimeStart st t1 auto force h1
    have harg : t1 + 100 - (nextState st t1 auto force).frameTimeStart = (100 : ℚ) := by
      rw [hft]; ring
    constructor
    · rw [frameFps, harg]; norm_num
    · have hm := fps_text_mem_drawn (nextState st t1 auto force) (t1 + 100) auto2 force2 h2
      rw [harg] at hm
      have h10 : ((jsRound (1000 / (100 : ℚ)) : ℤ) : ℚ) = 10 := by
        have he : (1000 : ℚ) / 100 = ((10 : ℤ) : ℚ) := by norm_num
        rw [he, jsRound_intCast]; norm_num
      rw [h10] at hm
      exact hm

/-- C6 witness: the timer on concrete drawn and skipped frames, and the
10-FPS reading of two drawn frames 100 ms apart. -/
theorem fps_only_on_drawn_frames_inst :
    (render activeSt 5 true false).frameTimeStart = 5 ∧
    (render settledIdleSt 5 true false).frameTimeStart = settledIdleSt.frameTimeStart ∧
    Event.fillText (JsText.numSuffix (10 : ℚ) " FPS") 0 0
      ∉ (render settledIdleSt 5 true false).events ∧
    frameFps (nextState activeSt 5 true false) (5 + 100) = 10 ∧
    Event.fillText (JsText.numSuffix (10 : ℚ) " FPS")
        activeSt.canvasWidth (FONT_SIZE * 2 + 5)
      ∈ (render (nextState activeSt 5 true false) (5 + 100) true false).events :=
  ⟨(fps_only_on_drawn_frames.1 activeSt 5 true false (by decide)).1,
   (fps_only_on_drawn_frames.2.1 settledIdleSt 5 true false (by decide)).1,
   (fps_only_on_drawn_frames.2.1 settledIdleSt 5 true false (by decide)).2 10 0 0 " FPS",
   (fps_only_on_drawn_frames.2.2 activeSt 5 true false true false (by decide) (by decide)).1,
   (fps_only_on_drawn_frames.2.2 activeSt 5 true false true false (by decide) (by decide)).2⟩

end SpessaRender
